import Mathlib

set_option autoImplicit false

/-!
Verification of the trace-context propagation and span-correlation layer of
an error-monitoring SDK's integration modules.

The repository contains two source files: `sentry_sdk/integrations/trytond.py`
(the Tryton WSGI error-handler integration, embedded below as `error_handler`)
and `tests/integrations/grpc/test_grpc_aio.py` (tests exercising the gRPC
integration).  The trace-context codec, the span/transaction model and the
interceptor shim those tests exercise are not part of the source tree, so they
are modelled here from the specification; each such definition carries a
`Modelled from the spec` doc comment naming the missing code.
-/

namespace Sentry

/-- Tri-state sampling decision carried by a trace context: sampled,
not sampled, or deferred (no decision yet, to be taken downstream). -/
inductive Sampled where
  | sampled
  | notSampled
  | deferred
deriving DecidableEq, Repr

/-- Modelled from the spec: the immutable `TraceContext` value of the data
model (the tracing core is not in the source tree).  `trace_id` is a 32-char
lowercase-hex identifier, `parent_span_id` a 16-char lowercase-hex identifier
of the span being continued (the "parent or self" span id that the primary
header always carries), `sampled` the tri-state sampling decision. -/
structure TraceContext where
  trace_id : String
  parent_span_id : String
  sampled : Sampled
deriving DecidableEq, Repr

/-- Lowercase hexadecimal digit check (characters 0-9 and a-f). -/
def isLowerHexDigit (c : Char) : Bool :=
  (('0' ≤ c) && (c ≤ '9')) || (('a' ≤ c) && (c ≤ 'f'))

/-- A string is a valid hex identifier of length `n`: exactly `n` characters,
all lowercase hex digits. -/
def isHexId (s : String) (n : Nat) : Bool :=
  s.length == n && s.data.all isLowerHexDigit

/-- A `TraceContext` is valid when its `trace_id` is exactly 32 hex characters
and its `parent_span_id` exactly 16 hex characters. -/
def validContext (ctx : TraceContext) : Bool :=
  isHexId ctx.trace_id 32 && isHexId ctx.parent_span_id 16

/-- Name of the primary trace header. -/
def sentryTraceHeader : String := "sentry-trace"

/-- Name of the auxiliary baggage header. -/
def baggageHeader : String := "baggage"

/-- Wire form of the sampling decision: "1" for sampled, "0" for not sampled,
absent (no third dash-delimited field) for deferred. -/
def sampledFlag : Sampled → Option String
  | .sampled => some "1"
  | .notSampled => some "0"
  | .deferred => none

/-- Modelled from the spec: value of the primary trace header, the single
dash-delimited token `trace_id-parent_or_self_span_id-sampled_flag`, with the
sampled flag omitted when the decision is deferred. -/
def encodeSentryTrace (ctx : TraceContext) : String :=
  match sampledFlag ctx.sampled with
  | some f => ctx.trace_id ++ "-" ++ ctx.parent_span_id ++ "-" ++ f
  | none => ctx.trace_id ++ "-" ++ ctx.parent_span_id

/-- Modelled from the spec: value of the auxiliary baggage header,
comma-delimited `key=value` pairs carrying trace id, environment, transaction
name and sample rate. -/
def encodeBaggage (environment txnName sampleRate : String)
    (ctx : TraceContext) : String :=
  "sentry-trace_id=" ++ ctx.trace_id ++
    ",sentry-environment=" ++ environment ++
    ",sentry-transaction=" ++ txnName ++
    ",sentry-sample_rate=" ++ sampleRate

/-- Modelled from the spec: `encode` of the trace-context codec.  Pure
function producing the two independent header entries (primary trace header
and baggage header). -/
def encode (environment txnName sampleRate : String) (ctx : TraceContext) :
    List (String × String) :=
  [(sentryTraceHeader, encodeSentryTrace ctx),
   (baggageHeader, encodeBaggage environment txnName sampleRate ctx)]

/-- Error raised by the codec's decode on a present but malformed primary
header. -/
inductive DecodeError where
  | malformed
deriving DecidableEq, Repr

/-- Split a character list on the dash character, in the manner of Python's
`str.split("-")`: the empty list splits to one empty field, and every dash
starts a new field. -/
def splitDash : List Char → List (List Char)
  | [] => [[]]
  | c :: cs =>
    if c = '-' then [] :: splitDash cs
    else
      match splitDash cs with
      | [] => [[c]]
      | f :: rest => (c :: f) :: rest

/-- ASCII lowercase of one character. -/
def asciiLower (c : Char) : Char :=
  if 'A' ≤ c && c ≤ 'Z' then Char.ofNat (c.toNat + 32) else c

/-- ASCII lowercase of a string, for case-insensitive header lookup. -/
def lowerStr (s : String) : String := ⟨s.data.map asciiLower⟩

/-- Modelled from the spec: the carrier adapter's case-insensitive lookup of a
header by name among the metadata entries, returning the first match. -/
def findHeader (name : String) : List (String × String) → Option String
  | [] => none
  | (k, v) :: rest =>
    if lowerStr k = lowerStr name then some v else findHeader name rest

/-- Modelled from the spec: parsing of the third dash-delimited field of the
primary header; "1" means sampled, anything else not sampled. -/
def parseSampledFlag (f : List Char) : Sampled :=
  if f = ['1'] then .sampled else .notSampled

/-- Modelled from the spec: decoding of the primary trace header's value.
Splits on dashes; accepts two fields (deferred sampling decision) or three;
requires a 32-hex-char trace id and a 16-hex-char span id; anything else is a
`DecodeError`. -/
def decodeSentryTrace (v : String) : Except DecodeError TraceContext :=
  match splitDash v.data with
  | [t, s] =>
    if isHexId ⟨t⟩ 32 && isHexId ⟨s⟩ 16 then
      .ok ⟨⟨t⟩, ⟨s⟩, .deferred⟩
    else .error .malformed
  | [t, s, f] =>
    if isHexId ⟨t⟩ 32 && isHexId ⟨s⟩ 16 then
      .ok ⟨⟨t⟩, ⟨s⟩, parseSampledFlag f⟩
    else .error .malformed
  | _ => .error .malformed

/-- Modelled from the spec: `decode` of the trace-context codec.  `none` when
the primary header is entirely absent (start a new trace); otherwise the
result of parsing it, which is a `DecodeError` when it is malformed. -/
def decode (headers : List (String × String)) :
    Option (Except DecodeError TraceContext) :=
  (findHeader sentryTraceHeader headers).map decodeSentryTrace

theorem String.data_append_eq (a b : String) : (a ++ b).data = a.data ++ b.data := by
  cases a; cases b; rfl

theorem splitDash_append (a b : List Char) (h : ∀ c ∈ a, c ≠ '-') :
    splitDash (a ++ '-' :: b) = a :: splitDash b := by
  induction a with
  | nil => simp [splitDash]
  | cons c cs ih =>
    have hc : c ≠ '-' := h c (List.mem_cons_self c cs)
    have ih' := ih (fun x hx => h x (List.mem_cons_of_mem c hx))
    simp only [List.cons_append, splitDash, if_neg hc, List.append_eq, ih']

theorem mem_hexId_ne_dash (s : String) (n : Nat) (h : isHexId s n = true) :
    ∀ c ∈ s.data, c ≠ '-' := by
  intro c hc
  have hall : s.data.all isLowerHexDigit = true := by
    simp only [isHexId, Bool.and_eq_true] at h
    exact h.2
  have hd : isLowerHexDigit c = true := by
    rw [List.all_eq_true] at hall
    exact hall c hc
  intro hcontra
  subst hcontra
  simp [isLowerHexDigit] at hd

theorem splitDash_no_dash (a : List Char) (h : ∀ c ∈ a, c ≠ '-') :
    splitDash a = [a] := by
  induction a with
  | nil => rfl
  | cons c cs ih =>
    have hc : c ≠ '-' := h c (List.mem_cons_self c cs)
    have ih' := ih (fun x hx => h x (List.mem_cons_of_mem c hx))
    simp only [splitDash, if_neg hc, ih']

theorem decodeSentryTrace_encode (ctx : TraceContext)
    (h : validContext ctx = true) :
    decodeSentryTrace (encodeSentryTrace ctx) = Except.ok ctx := by
  obtain ⟨t, s, sm⟩ := ctx
  simp only [validContext, Bool.and_eq_true] at h
  have htd := mem_hexId_ne_dash t 32 h.1
  have hsd := mem_hexId_ne_dash s 16 h.2
  have ht' : isHexId ⟨t.data⟩ 32 = true := h.1
  have hs' : isHexId ⟨s.data⟩ 16 = true := h.2
  have hdash : ("-" : String).data = ['-'] := rfl
  cases sm with
  | sampled =>
    have hdata : (encodeSentryTrace ⟨t, s, .sampled⟩).data
        = t.data ++ '-' :: (s.data ++ '-' :: ['1']) := by
      simp [encodeSentryTrace, sampledFlag, String.data_append_eq, hdash,
        show ("1" : String).data = ['1'] from rfl]
    rw [decodeSentryTrace, hdata, splitDash_append _ _ htd,
      splitDash_append _ _ hsd]
    simp [ht', hs', parseSampledFlag, splitDash]
  | notSampled =>
    have hdata : (encodeSentryTrace ⟨t, s, .notSampled⟩).data
        = t.data ++ '-' :: (s.data ++ '-' :: ['0']) := by
      simp [encodeSentryTrace, sampledFlag, String.data_append_eq, hdash,
        show ("0" : String).data = ['0'] from rfl]
    rw [decodeSentryTrace, hdata, splitDash_append _ _ htd,
      splitDash_append _ _ hsd]
    simp [ht', hs', parseSampledFlag, splitDash]
  | deferred =>
    have hdata : (encodeSentryTrace ⟨t, s, .deferred⟩).data
        = t.data ++ '-' :: s.data := by
      simp [encodeSentryTrace, sampledFlag, String.data_append_eq, hdash]
    rw [decodeSentryTrace, hdata, splitDash_append _ _ htd,
      splitDash_no_dash _ hsd]
    simp [ht', hs']

/-- C1: for every valid TraceContext value ctx, decoding the header pair
produced by encoding ctx yields ctx back: decode(encode(ctx)) == ctx. -/
theorem decode_encode_roundtrip (environment txnName sampleRate : String)
    (ctx : TraceContext) (h : validContext ctx = true) :
    decode (encode environment txnName sampleRate ctx)
      = some (Except.ok ctx) := by
  have hfind : findHeader sentryTraceHeader
      (encode environment txnName sampleRate ctx)
      = some (encodeSentryTrace ctx) := by
    simp [encode, findHeader]
  rw [decode, hfind, Option.map_some']
  exact congrArg some (decodeSentryTrace_encode ctx h)

/-- Witness for C1 at a concrete valid context. -/
theorem decode_encode_roundtrip_witness :
    validContext ⟨"012345670123456701234567abcdefab", "abcdefab01234567",
        Sampled.sampled⟩ = true ∧
    decode (encode "test" "tx" "1.0"
        ⟨"012345670123456701234567abcdefab", "abcdefab01234567",
          Sampled.sampled⟩)
      = some (Except.ok ⟨"012345670123456701234567abcdefab", "abcdefab01234567",
          Sampled.sampled⟩) :=
  ⟨by decide, decode_encode_roundtrip "test" "tx" "1.0" _ (by decide)⟩

/-- Primary header values the claim calls malformed: wrong number of
dash-delimited fields, non-hex identifiers, trace id not exactly 32 hex
characters, or span id not exactly 16 hex characters (`isHexId` checks
hex-ness and exact length together). -/
def malformedPrimary (v : String) : Bool :=
  match splitDash v.data with
  | [t, s] => !(isHexId ⟨t⟩ 32 && isHexId ⟨s⟩ 16)
  | [t, s, _] => !(isHexId ⟨t⟩ 32 && isHexId ⟨s⟩ 16)
  | _ => true

/-- C2: decode returns a DecodeError exactly when the primary trace header is
present but malformed (wrong field count, non-hex ids, wrong id lengths), and
returns None, not an error, when the primary header is entirely absent. -/
theorem decode_error_characterization (headers : List (String × String)) :
    (findHeader sentryTraceHeader headers = none → decode headers = none) ∧
    ∀ v, findHeader sentryTraceHeader headers = some v →
      (decode headers = some (Except.error DecodeError.malformed)
        ↔ malformedPrimary v = true) := by
  constructor
  · intro habs
    rw [decode, habs, Option.map_none']
  · intro v hv
    rw [decode, hv, Option.map_some']
    cases hsp : splitDash v.data with
    | nil => simp [decodeSentryTrace, malformedPrimary, hsp]
    | cons t rest =>
      cases rest with
      | nil => simp [decodeSentryTrace, malformedPrimary, hsp]
      | cons s rest2 =>
        cases rest2 with
        | nil =>
          by_cases hok : (isHexId ⟨t⟩ 32 && isHexId ⟨s⟩ 16) = true
          · simp [decodeSentryTrace, malformedPrimary, hsp, hok]
          · simp [decodeSentryTrace, malformedPrimary, hsp,
              Bool.not_eq_true _ ▸ hok]
        | cons f rest3 =>
          cases rest3 with
          | nil =>
            by_cases hok : (isHexId ⟨t⟩ 32 && isHexId ⟨s⟩ 16) = true
            · simp [decodeSentryTrace, malformedPrimary, hsp, hok]
            · simp [decodeSentryTrace, malformedPrimary, hsp, hok]
          | cons g rest4 =>
            simp [decodeSentryTrace, malformedPrimary, hsp]

/-- Witness for C2 at a concrete malformed header list. -/
theorem decode_error_characterization_witness :
    decode [(("sentry-trace" : String), ("xyz" : String))]
        = some (Except.error DecodeError.malformed)
      ↔ malformedPrimary "xyz" = true :=
  (decode_error_characterization [("sentry-trace", "xyz")]).2 "xyz" (by decide)

/-- Span status enum of the data model. -/
inductive SpanStatus where
  | ok
  | error
  | unset
deriving DecidableEq, Repr

/-- Modelled from the spec: the mutable Span of the data model (the tracing
core is not in the source tree): identifiers, operation label, description,
timing, status and a string-keyed data mapping. -/
structure Span where
  span_id : String
  trace_id : String
  parent_span_id : Option String
  operation : String
  description : String
  start_time : Nat
  end_time : Option Nat
  status : SpanStatus
  data : List (String × String)
deriving DecidableEq, Repr

/-- Modelled from the spec: Span.finish(status) sets end_time = now and the
status; on an already finished span the call is a no-op, not an error, to
tolerate double cleanup in exit-path guarantees. -/
def Span.finish (s : Span) (st : SpanStatus) (now : Nat) : Span :=
  if s.end_time.isSome then s
  else { s with end_time := some now, status := st }

theorem Span.finish_span_id (s : Span) (st : SpanStatus) (now : Nat) :
    (s.finish st now).span_id = s.span_id := by
  unfold Span.finish
  split <;> rfl

theorem Span.finish_data (s : Span) (st : SpanStatus) (now : Nat) :
    (s.finish st now).data = s.data := by
  unfold Span.finish
  split <;> rfl

/-- C8: for every Span s, calling s.finish a second time after it has already
been finished is a no-op, not an error: the span (in particular its end_time
and status) is unchanged by the second call. -/
theorem span_finish_idempotent (s : Span) (st1 st2 : SpanStatus)
    (t1 t2 : Nat) :
    (s.finish st1 t1).finish st2 t2 = s.finish st1 t1 := by
  unfold Span.finish
  by_cases h : s.end_time.isSome
  · simp [h]
  · simp [h]

/-- How a transaction's name was derived. -/
inductive TxSource where
  | custom
  | url
  | route
  | component
deriving DecidableEq, Repr

/-- Modelled from the spec: a Transaction, the root span of a trace within
one process boundary, with its name, source, identifiers, sampling decision,
its ordered child-span sequence, and whether it has been finalized. -/
structure Transaction where
  name : String
  op : String
  trace_id : String
  span_id : String
  parent_span_id : Option String
  sampled : Sampled
  source : TxSource
  start_time : Nat
  end_time : Option Nat
  status : SpanStatus
  spans : List Span
  finished : Bool
deriving DecidableEq, Repr

/-- Modelled from the spec: start_transaction(name, incoming_context,
operation).  With an incoming context present the new transaction continues
it: trace_id and parent_span_id are taken from the context, and the sampling
decision from context.sampled unless deferred, in which case it is computed
locally (`localDecision` is the sampling policy provider's output).  With no
incoming context a fresh trace starts with the given new trace id.
`newSpanId` is the transaction's own freshly allocated span id, `now` its
start time. -/
def start_transaction (name : String) (incoming : Option TraceContext)
    (operation : String) (newTraceId newSpanId : String)
    (localDecision : Bool) (now : Nat) : Transaction :=
  match incoming with
  | some ctx =>
    { name := name
      op := operation
      trace_id := ctx.trace_id
      span_id := newSpanId
      parent_span_id := some ctx.parent_span_id
      sampled :=
        match ctx.sampled with
        | .deferred => if localDecision then .sampled else .notSampled
        | s => s
      source := .custom
      start_time := now
      end_time := none
      status := .unset
      spans := []
      finished := false }
  | none =>
    { name := name
      op := operation
      trace_id := newTraceId
      span_id := newSpanId
      parent_span_id := none
      sampled := if localDecision then .sampled else .notSampled
      source := .custom
      start_time := now
      end_time := none
      status := .unset
      spans := []
      finished := false }

/-- Modelled from the spec and the client role of the shim: the trace context
a client propagates for its active transaction — the transaction's trace id,
the transaction's own span id as the parent-or-self span id, and its sampling
decision (this is exactly what the test's client writes into the primary
header from transaction.trace_id and transaction.span_id). -/
def outgoingContext (t : Transaction) : TraceContext :=
  ⟨t.trace_id, t.span_id, t.sampled⟩

/-- C3: a server transaction started by continuing the incoming context of a
client's originating transaction has trace_id equal to that client
transaction's trace_id (the trace id carried in the incoming context) and
parent_span_id equal to the incoming context's span identifier. -/
theorem start_transaction_continues (tcl : Transaction)
    (name operation newTraceId newSpanId : String) (localDecision : Bool)
    (now : Nat) :
    (start_transaction name (some (outgoingContext tcl)) operation newTraceId
        newSpanId localDecision now).trace_id = tcl.trace_id ∧
    (start_transaction name (some (outgoingContext tcl)) operation newTraceId
        newSpanId localDecision now).parent_span_id
      = some (outgoingContext tcl).parent_span_id :=
  ⟨rfl, rfl⟩

/-- A transaction event handed to the reporting collaborator: the finalized
transaction with all its child spans. -/
structure TxEvent where
  event_type : String
  transaction_name : String
  trace_id : String
  spans : List Span
deriving DecidableEq, Repr

/-- Modelled from the spec: the one event emitted for a completed
transaction, carrying all its children. -/
def eventOf (t : Transaction) : TxEvent :=
  ⟨"transaction", t.name, t.trace_id, t.spans⟩

/-- Modelled from the spec: start_span(parent, operation, description)
allocates a new span id, sets parent_span_id to the parent transaction's own
span id, inherits trace_id, and appends the open span to the transaction's
child sequence; a finalized transaction is not mutated. -/
def Transaction.start_span (t : Transaction)
    (sid operation description : String) (now : Nat) : Transaction :=
  if t.finished then t
  else
    { t with spans := t.spans ++
        [{ span_id := sid
           trace_id := t.trace_id
           parent_span_id := some t.span_id
           operation := operation
           description := description
           start_time := now
           end_time := none
           status := .unset
           data := [] }] }

/-- Modelled from the spec: finishing one child span by id inside the
transaction (Span.finish applied to the matching spans). -/
def Transaction.finish_span (t : Transaction) (sid : String)
    (st : SpanStatus) (now : Nat) : Transaction :=
  { t with spans := t.spans.map fun s =>
      if s.span_id = sid then s.finish st now else s }

/-- Modelled from the spec: Transaction.finish(status) — same as Span.finish,
and additionally freezes the child sequence and emits the completed
transaction, with all its children, to the reporting collaborator as one
event.  The event sink models the reporting collaborator; an already
finished transaction emits nothing further. -/
def Transaction.finish (t : Transaction) (st : SpanStatus) (now : Nat)
    (sink : List TxEvent) : Transaction × List TxEvent :=
  if t.finished then (t, sink)
  else
    let t1 := { t with finished := true, end_time := some now, status := st }
    (t1, sink ++ [eventOf t1])

/-- One in-request operation on the open transaction between its start and
its finish: opening a child span or finishing one. -/
inductive TxOp where
  | openSpan (sid operation description : String) (now : Nat)
  | closeSpan (sid : String) (st : SpanStatus) (now : Nat)
deriving DecidableEq, Repr

/-- Run a sequence of in-request operations on a transaction. -/
def runOps (t : Transaction) : List TxOp → Transaction
  | [] => t
  | TxOp.openSpan sid operation description now :: rest =>
    runOps (t.start_span sid operation description now) rest
  | TxOp.closeSpan sid st now :: rest =>
    runOps (t.finish_span sid st now) rest

/-- Span ids opened by a sequence of in-request operations. -/
def openedIds : List TxOp → List String
  | [] => []
  | TxOp.openSpan sid _ _ _ :: rest => sid :: openedIds rest
  | TxOp.closeSpan _ _ _ :: rest => openedIds rest

theorem start_span_finished (t : Transaction)
    (sid operation description : String) (now : Nat) :
    (t.start_span sid operation description now).finished = t.finished := by
  unfold Transaction.start_span
  split <;> rfl

theorem finish_span_finished (t : Transaction) (sid : String)
    (st : SpanStatus) (now : Nat) :
    (t.finish_span sid st now).finished = t.finished := rfl

theorem runOps_finished (ops : List TxOp) (t : Transaction) :
    (runOps t ops).finished = t.finished := by
  induction ops generalizing t with
  | nil => rfl
  | cons op rest ih =>
    cases op with
    | openSpan sid operation description now =>
      rw [runOps, ih, start_span_finished]
    | closeSpan sid st now =>
      rw [runOps, ih, finish_span_finished]

theorem finish_span_ids (t : Transaction) (sid : String) (st : SpanStatus)
    (now : Nat) :
    (t.finish_span sid st now).spans.map Span.span_id
      = t.spans.map Span.span_id := by
  unfold Transaction.finish_span
  rw [List.map_map]
  apply List.map_congr_left
  intro s _
  by_cases hs : s.span_id = sid
  · simp [hs, Span.finish_span_id]
  · simp [hs]

theorem runOps_span_ids (ops : List TxOp) (t : Transaction)
    (h : t.finished = false) :
    (runOps t ops).spans.map Span.span_id
      = t.spans.map Span.span_id ++ openedIds ops := by
  induction ops generalizing t with
  | nil => simp [runOps, openedIds]
  | cons op rest ih =>
    cases op with
    | openSpan sid operation description now =>
      rw [runOps, openedIds,
        ih _ (by rw [start_span_finished]; exact h)]
      simp [Transaction.start_span, h]
    | closeSpan sid st now =>
      rw [runOps, openedIds, ih (t.finish_span sid st now) h, finish_span_ids]

/-- C4: for every transaction that is started and then finished, exactly one
event is emitted to the reporting collaborator (the sink grows by exactly the
one event of the finished transaction), and that event contains every span
opened between the transaction's start and its finish and no other spans
(its spans' ids are exactly the opened ids). -/
theorem transaction_emits_one_event_with_exact_spans (name : String)
    (incoming : Option TraceContext) (operation : String)
    (newTraceId newSpanId : String) (localDecision : Bool) (t0 t1 : Nat)
    (ops : List TxOp) (st : SpanStatus) (sink : List TxEvent) :
    ((runOps (start_transaction name incoming operation newTraceId newSpanId
          localDecision t0) ops).finish st t1 sink).2
      = sink ++ [eventOf ((runOps (start_transaction name incoming operation
          newTraceId newSpanId localDecision t0) ops).finish st t1 sink).1] ∧
    (eventOf ((runOps (start_transaction name incoming operation newTraceId
          newSpanId localDecision t0) ops).finish st t1 sink).1).spans.map
        Span.span_id
      = openedIds ops := by
  have hstart : (start_transaction name incoming operation newTraceId
      newSpanId localDecision t0).finished = false := by
    cases incoming <;> rfl
  have hspans : (start_transaction name incoming operation newTraceId
      newSpanId localDecision t0).spans = [] := by
    cases incoming <;> rfl
  have hrun : (runOps (start_transaction name incoming operation newTraceId
      newSpanId localDecision t0) ops).finished = false := by
    rw [runOps_finished]; exact hstart
  have hids : (runOps (start_transaction name incoming operation newTraceId
      newSpanId localDecision t0) ops).spans.map Span.span_id
      = openedIds ops := by
    rw [runOps_span_ids _ _ hstart, hspans]
    simp
  constructor
  · simp [Transaction.finish, hrun]
  · simp [Transaction.finish, hrun, eventOf]
    exact hids

/-- Error for mutating a finalized span or transaction. -/
inductive InvalidStateError where
  | invalidState
deriving DecidableEq, Repr

/-- A mutation attempt on a transaction. -/
inductive TxMutation where
  | setName (n : String)
  | setStatus (st : SpanStatus)
  | addSpan (sid operation description : String) (now : Nat)
deriving DecidableEq, Repr

/-- Modelled from the spec: after finalization a transaction permits no
further mutation — any attempt fails with an InvalidStateError and leaves the
transaction unchanged; before finalization the mutation is applied. -/
def Transaction.tryMutate (t : Transaction) (m : TxMutation) :
    Except InvalidStateError Unit × Transaction :=
  if t.finished then (Except.error InvalidStateError.invalidState, t)
  else
    match m with
    | .setName n => (Except.ok (), { t with name := n })
    | .setStatus st => (Except.ok (), { t with status := st })
    | .addSpan sid operation description now =>
      (Except.ok (), t.start_span sid operation description now)

/-- C9: every mutation attempt on a finalized transaction fails with an
InvalidStateError and leaves the transaction's state unchanged. -/
theorem finalized_transaction_mutation_fails (t : Transaction)
    (m : TxMutation) (h : t.finished = true) :
    t.tryMutate m = (Except.error InvalidStateError.invalidState, t) := by
  simp [Transaction.tryMutate, h]

/-- A concrete finalized transaction used by witnesses. -/
def aFinishedTransaction : Transaction :=
  { name := "tx"
    op := "op"
    trace_id := "012345670123456701234567abcdefab"
    span_id := "abcdefab01234567"
    parent_span_id := none
    sampled := Sampled.sampled
    source := TxSource.custom
    start_time := 0
    end_time := some 5
    status := SpanStatus.ok
    spans := []
    finished := true }

/-- Witness for C9 at a concrete finalized transaction. -/
theorem finalized_transaction_mutation_fails_witness :
    aFinishedTransaction.tryMutate (TxMutation.setName "other")
      = (Except.error InvalidStateError.invalidState, aFinishedTransaction) :=
  finalized_transaction_mutation_fails aFinishedTransaction
    (TxMutation.setName "other") rfl

/-- Modelled from the spec: overwrite-or-insert into a span's string-keyed
data mapping (insertion order is irrelevant per the data model). -/
def setData (d : List (String × String)) (k v : String) :
    List (String × String) :=
  (k, v) :: d.filter fun p => p.1 ≠ k

/-- Lookup in a span's string-keyed data mapping. -/
def getData (d : List (String × String)) (k : String) : Option String :=
  match d with
  | [] => none
  | (k1, v) :: rest => if k1 = k then some v else getData rest k

/-- Modelled from the spec: Span.set_data stores one key-value pair in the
span's data mapping. -/
def Span.set_data (s : Span) (k v : String) : Span :=
  { s with data := setData s.data k v }

/-- Modelled from the spec: the client shim's completion step — on call
completion (success or transport-level error) the span's data is populated
with the call kind ("type"), the fully qualified target method ("method") and
the completion status code ("code"), and Span.finish is invoked. -/
def onClientCallComplete (s : Span) (kind method code : String)
    (st : SpanStatus) (now : Nat) : Span :=
  ((((s.set_data "type" kind).set_data "method" method).set_data
    "code" code).finish st now)

theorem getData_setData_same (d : List (String × String)) (k v : String) :
    getData (setData d k v) k = some v := by
  simp [setData, getData]

theorem getData_filter_ne (d : List (String × String)) (k k1 : String)
    (h : k ≠ k1) :
    getData (d.filter fun p => p.1 ≠ k1) k = getData d k := by
  induction d with
  | nil => rfl
  | cons p rest ih =>
    by_cases hp : p.1 = k1
    · rw [List.filter_cons_of_neg (by simp [hp]), ih, getData,
        if_neg (hp ▸ fun hh => h hh.symm)]
    · rw [List.filter_cons_of_pos (by simp [hp])]
      rw [getData, getData]
      split <;> [rfl; exact ih]

theorem getData_setData_ne (d : List (String × String)) (k k1 v : String)
    (h : k ≠ k1) :
    getData (setData d k1 v) k = getData d k := by
  rw [setData, getData, if_neg fun hh => h hh.symm]
  exact getData_filter_ne d k k1 h

/-- C7: for every client-side outbound call that completes, the client span's
data mapping holds the call kind under "type", the fully qualified target
method under "method" and the completion status code under "code", and
Span.finish has been invoked on the (previously open) span, setting its end
time. -/
theorem client_call_completion (s : Span) (kind method code : String)
    (st : SpanStatus) (now : Nat) (h : s.end_time = none) :
    getData (onClientCallComplete s kind method code st now).data "type"
        = some kind ∧
    getData (onClientCallComplete s kind method code st now).data "method"
        = some method ∧
    getData (onClientCallComplete s kind method code st now).data "code"
        = some code ∧
    (onClientCallComplete s kind method code st now).end_time = some now := by
  have hdata : (onClientCallComplete s kind method code st now).data
      = setData (setData (setData s.data "type" kind) "method" method)
          "code" code := by
    rw [onClientCallComplete, Span.finish_data]
    rfl
  have hend : (onClientCallComplete s kind method code st now).end_time
      = some now := by
    rw [onClientCallComplete, Span.finish]
    have : ((((s.set_data "type" kind).set_data "method" method).set_data
        "code" code).end_time) = none := h
    rw [this]
    rfl
  refine ⟨?_, ?_, ?_, hend⟩
  · rw [hdata, getData_setData_ne _ _ _ _ (by decide),
      getData_setData_ne _ _ _ _ (by decide), getData_setData_same]
  · rw [hdata, getData_setData_ne _ _ _ _ (by decide), getData_setData_same]
  · rw [hdata, getData_setData_same]

/-- A concrete open client span used by witnesses. -/
def anOpenSpan : Span :=
  { span_id := "abcdefab01234567"
    trace_id := "012345670123456701234567abcdefab"
    parent_span_id := some "0123456701234567"
    operation := "grpc.client"
    description := "unary unary call to /gRPCTestService/TestServe"
    start_time := 3
    end_time := none
    status := SpanStatus.unset
    data := [] }

/-- Witness for C7 at a concrete open span. -/
theorem client_call_completion_witness :
    getData (onClientCallComplete anOpenSpan "unary unary"
        "/gRPCTestService/TestServe" "OK" SpanStatus.ok 7).data "type"
        = some "unary unary" ∧
    getData (onClientCallComplete anOpenSpan "unary unary"
        "/gRPCTestService/TestServe" "OK" SpanStatus.ok 7).data "method"
        = some "/gRPCTestService/TestServe" ∧
    getData (onClientCallComplete anOpenSpan "unary unary"
        "/gRPCTestService/TestServe" "OK" SpanStatus.ok 7).data "code"
        = some "OK" ∧
    (onClientCallComplete anOpenSpan "unary unary"
        "/gRPCTestService/TestServe" "OK" SpanStatus.ok 7).end_time = some 7 :=
  client_call_completion anOpenSpan "unary unary"
    "/gRPCTestService/TestServe" "OK" SpanStatus.ok 7 rfl

/-- An exception value as seen by the trytond error handler: its type name,
whether it is an instance of TrytonException (the denylisted base type,
checked with `isinstance` in the source), and its message. -/
structure Exc where
  etype : String
  isTrytonException : Bool
  message : String
deriving DecidableEq, Repr

/-- The mechanism tag attached to a captured exception event. -/
structure Mechanism where
  mtype : String
  handled : Bool
deriving DecidableEq, Repr

/-- An error event handed to capture_event. -/
structure ErrorEvent where
  exc_type : String
  exc_value : String
  mechanism : Mechanism
deriving DecidableEq, Repr

/-- Modelled from the spec: event_from_exception builds the structured event
for an exception with the given mechanism (sentry_sdk.utils is not in the
source tree). -/
def event_from_exception (e : Exc) (mech : Mechanism) : ErrorEvent :=
  ⟨e.etype, e.message, mech⟩

/-- SDK state the handler touches: whether TrytondWSGIIntegration is enabled
on the current client, and the events captured so far. -/
structure SdkState where
  integrationEnabled : Bool
  captured : List ErrorEvent
deriving DecidableEq, Repr

/-- Embedding of `error_handler` from sentry_sdk/integrations/trytond.py.
The `ensure_integration_enabled(TrytondWSGIIntegration)` decorator makes the
body a no-op when the integration is not enabled on the current client (the
decorator itself lives in sentry_sdk.utils, not in the source tree, and is
modelled from its use); the body returns without capturing when the exception
is a TrytonException, and otherwise captures exactly the event built by
event_from_exception with mechanism type "trytond" and handled False. -/
def error_handler (st : SdkState) (e : Exc) : SdkState :=
  if !st.integrationEnabled then st
  else if e.isTrytonException then st
  else { st with captured := st.captured ++
    [event_from_exception e ⟨"trytond", false⟩] }

/-- Modelled from the spec: the framework's error path around the wrapped
handler — when the handler raises, the registered error handler observes the
exception and the original exception then propagates to the caller unchanged
(the shim never swallows or alters the business outcome). -/
def handleRequest (st : SdkState) (outcome : Except Exc String) :
    SdkState × Except Exc String :=
  match outcome with
  | .ok v => (st, .ok v)
  | .error e => (error_handler st e, .error e)

/-- C5: a denylisted (TrytonException) exception raised by the wrapped
handler produces zero reporting events, and the exception still propagates to
the caller unchanged. -/
theorem denylisted_exception_no_event (st : SdkState) (e : Exc)
    (h : e.isTrytonException = true) :
    (handleRequest st (Except.error e)).1.captured = st.captured ∧
    (handleRequest st (Except.error e)).2 = Except.error e := by
  refine ⟨?_, rfl⟩
  simp [handleRequest, error_handler, h]

/-- Witness for C5 at a concrete Tryton exception. -/
theorem denylisted_exception_no_event_witness :
    (handleRequest ⟨true, []⟩
        (Except.error ⟨"UserError", true, "expected"⟩)).1.captured
      = SdkState.captured ⟨true, []⟩ ∧
    (handleRequest ⟨true, []⟩
        (Except.error ⟨"UserError", true, "expected"⟩)).2
      = Except.error ⟨"UserError", true, "expected"⟩ :=
  denylisted_exception_no_event ⟨true, []⟩ ⟨"UserError", true, "expected"⟩ rfl

/-- C6: a non-denylisted exception raised by the wrapped handler, with the
integration enabled on the current client, produces exactly one event, whose
mechanism has handled = false and type "trytond" identifying the integration,
and the exception still propagates to the caller. -/
theorem non_denylisted_exception_one_event (st : SdkState) (e : Exc)
    (henabled : st.integrationEnabled = true)
    (h : e.isTrytonException = false) :
    (handleRequest st (Except.error e)).1.captured
        = st.captured ++ [event_from_exception e ⟨"trytond", false⟩] ∧
    (event_from_exception e ⟨"trytond", false⟩).mechanism.handled = false ∧
    (event_from_exception e ⟨"trytond", false⟩).mechanism.mtype = "trytond" ∧
    (handleRequest st (Except.error e)).2 = Except.error e := by
  refine ⟨?_, rfl, rfl, rfl⟩
  simp [handleRequest, error_handler, henabled, h]

/-- Witness for C6 at a concrete non-Tryton exception. -/
theorem non_denylisted_exception_one_event_witness :
    (handleRequest ⟨true, []⟩
        (Except.error ⟨"ValueError", false, "boom"⟩)).1.captured
      = SdkState.captured ⟨true, []⟩ ++
          [event_from_exception ⟨"ValueError", false, "boom"⟩
            ⟨"trytond", false⟩] ∧
    (event_from_exception ⟨"ValueError", false, "boom"⟩
        ⟨"trytond", false⟩).mechanism.handled = false ∧
    (event_from_exception ⟨"ValueError", false, "boom"⟩
        ⟨"trytond", false⟩).mechanism.mtype = "trytond" ∧
    (handleRequest ⟨true, []⟩
        (Except.error ⟨"ValueError", false, "boom"⟩)).2
      = Except.error ⟨"ValueError", false, "boom"⟩ :=
  non_denylisted_exception_one_event ⟨true, []⟩ ⟨"ValueError", false, "boom"⟩
    rfl rfl

/-- C10: when TrytondWSGIIntegration is not enabled on the current client,
the error handler is a no-op and captures nothing, for every exception
including non-Tryton ones. -/
theorem disabled_integration_no_capture (st : SdkState) (e : Exc)
    (h : st.integrationEnabled = false) :
    error_handler st e = st := by
  simp [error_handler, h]

/-- Witness for C10 at a concrete non-Tryton exception with the integration
disabled. -/
theorem disabled_integration_no_capture_witness :
    error_handler ⟨false, []⟩ ⟨"ValueError", false, "boom"⟩ = ⟨false, []⟩ :=
  disabled_integration_no_capture ⟨false, []⟩ ⟨"ValueError", false, "boom"⟩
    rfl

end Sentry
